import Mathlib

set_option autoImplicit false
set_option linter.unusedVariables false
set_option maxRecDepth 8192

/-! Shallow embedding of the daily-art-post pipeline of this repository:
`scripts/generate_and_post.py` (MetMuseumAPI, PostTracker, SimplePostGenerator,
FacebookPoster, `main`) and `scripts/artist_scraper.py`
(WikidataArtistScraper.query_wikidata).  All HTTP traffic is modelled by oracle
functions passed in explicitly; an oracle maps the index of the request that
would be issued to the response (or transport failure) that request receives.
Randomness (`random.choice`) is externalised as explicit index choices. -/

/-- The JSON object returned by the Met `objects/{id}` endpoint, restricted to
the keys `MetMuseumAPI.get_artwork_details` reads.  `none` models an absent
(or JSON-null) key, matching Python `dict.get` defaults. -/
structure ApiObject where
  title : Option String
  artistDisplayName : Option String
  objectDate : Option String
  medium : Option String
  culture : Option String
  period : Option String
  primaryImage : Option String
  objectURL : Option String
  department : Option String
  dimensions : Option String
  classification : Option String
deriving Repr, DecidableEq

/-- The artwork dictionary built by `MetMuseumAPI.get_artwork_details`
(generate_and_post.py lines 86-99); every key is always present there. -/
structure Artwork where
  object_id : Nat
  title : String
  artist : String
  date : String
  medium : String
  culture : String
  period : String
  image_url : String
  museum_url : String
  department : String
  dimensions : String
  classification : String
deriving Repr, DecidableEq

/-- A generated post as built by `SimplePostGenerator` (the dictionaries
returned at lines 223-229 etc. of generate_and_post.py). -/
structure CandidatePost where
  post_text : String
  image_url : String
  link_url : String
  type : String
  artwork_details : Artwork
deriving Repr, DecidableEq

/-- One entry of the posting log, as appended by `PostTracker.log_post`. -/
structure LogEntry where
  timestamp : String
  post_id : String
  object_id : Option Nat
  title : String
  artist : String
deriving Repr, DecidableEq

/-- The dictionary handed to `PostTracker.log_post`; `Option` fields model
`dict.get` with its defaults. -/
structure PostData where
  id : Option String
  object_id : Option Nat
  title : Option String
  artist : Option String
deriving Repr, DecidableEq

/-- The JSON object returned by the Facebook Graph photo publish call,
restricted to the `id` key read by `main` (line 568). -/
structure FbResponse where
  id : Option String
deriving Repr, DecidableEq

/-- MetMuseumAPI.search_artworks (generate_and_post.py lines 54-73).
The oracle `http` gives, per request index, either a transport/parse failure
(any raised exception, absorbed by the `except` into `[]`) or the decoded
`objectIDs` value (`none` for an absent or null key).  The source issues
exactly one request, so only `http 0` is consulted. -/
def search_artworks (http : Nat → Except Unit (Option (List Nat))) (limit : Nat) : List Nat :=
  match http 0 with
  | Except.error _ => []
  | Except.ok objectIDs =>
    let object_ids := objectIDs.getD []
    if object_ids.isEmpty then [] else object_ids.take limit

/-- MetMuseumAPI.get_artwork_details (generate_and_post.py lines 75-103).
`http` maps the request index to the decoded object (`none` for a raised
exception, absorbed into `None`); the source issues exactly one request.
A falsy `primaryImage` (absent, null or empty) yields `none`. -/
def get_artwork_details (object_id : Nat) (http : Nat → Option ApiObject) : Option Artwork :=
  match http 0 with
  | none => none
  | some data =>
    if data.primaryImage.getD "" = "" then none
    else some {
      object_id := object_id,
      title := data.title.getD "Untitled",
      artist := data.artistDisplayName.getD "Unknown Artist",
      date := data.objectDate.getD "Date unknown",
      medium := data.medium.getD "Medium unknown",
      culture := data.culture.getD "",
      period := data.period.getD "",
      image_url := data.primaryImage.getD "",
      museum_url := data.objectURL.getD "",
      department := data.department.getD "",
      dimensions := data.dimensions.getD "",
      classification := data.classification.getD "" }

/-- Insertion into the Python-set model used for `PostTracker.used_artworks`:
a duplicate-free list with membership semantics (`set.add`). -/
def setInsert (s : List String) (x : String) : List String :=
  if s.contains x then s else s ++ [x]

/-- PostTracker.is_used (lines 137-139): membership of `str(object_id)`. -/
def is_used (used : List String) (object_id : Nat) : Bool :=
  used.contains (toString object_id)

/-- PostTracker.is_used when handed an id that is already a string
(`str` of a `str` is the identity). -/
def is_used_str (used : List String) (object_id : String) : Bool :=
  used.contains object_id

/-- PostTracker.mark_used (lines 141-144): adds `str(object_id)` to the set
(the subsequent `_save_used` persists exactly this set). -/
def mark_used (used : List String) (object_id : Nat) : List String :=
  setInsert used (toString object_id)

/-- PostTracker.log_post (lines 151-160): the entry appended to the log. -/
def log_post_entry (now : String) (post_data : PostData) : LogEntry :=
  { timestamp := now,
    post_id := post_data.id.getD "unknown",
    object_id := post_data.object_id,
    title := post_data.title.getD "Unknown",
    artist := post_data.artist.getD "Unknown" }

/-- A persisted JSON file: absent, unparseable, or holding decoded contents. -/
inductive FileState (α : Type) where
  | missing
  | malformed
  | stored (contents : α)
deriving Repr, DecidableEq

/-- PostTracker._load_used (lines 117-125): a missing or malformed file loads
as the empty set; a stored list of id strings is turned into a set. -/
def load_used : FileState (List String) → List String
  | FileState.missing => []
  | FileState.malformed => []
  | FileState.stored l => l.foldl setInsert []

/-- PostTracker._load_log (lines 127-135). -/
def load_log : FileState (List LogEntry) → List LogEntry
  | FileState.missing => []
  | FileState.malformed => []
  | FileState.stored l => l

/-- PostTracker.get_post_queue (lines 167-175). -/
def get_post_queue : FileState (List CandidatePost) → List CandidatePost
  | FileState.missing => []
  | FileState.malformed => []
  | FileState.stored l => l

/-- SimplePostGenerator.post_templates (lines 187-192). -/
def post_templates : List String :=
  ["daily_artwork", "artist_spotlight", "technique_focus", "period_context"]

/-- `random.choice` over a fixed non-empty list, with the random draw
externalised as an index (taken modulo the length). -/
def rand_choice (l : List String) (dflt : String) (i : Nat) : String :=
  l.getD (i % l.length) dflt

/-- The five appreciation lines of `_get_appreciation_line` (lines 304-313). -/
def appreciation_lines : List String :=
  ["A masterpiece that continues to inspire art lovers worldwide.",
   "The skillful composition and technique make this a timeless work.",
   "Notice the masterful use of light, color, and form in this piece.",
   "A stunning example of artistic excellence from this period.",
   "The attention to detail and artistic vision are truly remarkable."]

/-- The five engagement questions of `_get_engagement_question` (315-324). -/
def engagement_questions : List String :=
  ["What emotions does this artwork evoke for you?",
   "What details do you notice first in this painting?",
   "How would you describe this work to someone who can\x27t see it?",
   "What story do you think this painting tells?",
   "Which element of this artwork speaks to you most?"]

/-- The externalised random draws consumed by one `generate_post` call. -/
structure GenChoices where
  typeIdx : Nat
  apprIdx : Nat
  questIdx : Nat
deriving Repr, DecidableEq

/-- SimplePostGenerator._daily_artwork (lines 208-229). -/
def daily_artwork (artwork : Artwork) (c : GenChoices) : CandidatePost :=
  let post := "🎨 𝗔𝗿𝘁𝘄𝗼𝗿𝗸 𝗼𝗳 𝘁𝗵𝗲 𝗗𝗮𝘆\n\n"
    ++ "\"" ++ artwork.title ++ "\"\n"
    ++ "by " ++ artwork.artist ++ "\n"
    ++ "(" ++ artwork.date ++ ")\n\n"
    ++ "✨ " ++ rand_choice appreciation_lines "" c.apprIdx ++ "\n\n"
    ++ "🏛️ The Metropolitan Museum of Art\n\n"
    ++ rand_choice engagement_questions "" c.questIdx ++ "\n\n"
    ++ "#ArtHistory #Painting #FineArt #ClassicalArt #Museum "
    ++ "#ArtLovers #ArtAppreciation #DailyArt #MetMuseum"
  { post_text := post, image_url := artwork.image_url, link_url := artwork.museum_url,
    type := "daily_artwork", artwork_details := artwork }

/-- SimplePostGenerator._artist_spotlight (lines 231-251). -/
def artist_spotlight (artwork : Artwork) (c : GenChoices) : CandidatePost :=
  let artist_tag := (artwork.artist.replace " " "").replace "." ""
  let post := "👨‍🎨 𝗔𝗿𝘁𝗶𝘀𝘁 𝗦𝗽𝗼𝘁𝗹𝗶𝗴𝗵𝘁: " ++ artwork.artist ++ "\n\n"
    ++ "A master of " ++ artwork.period ++ ", "
    ++ artwork.artist ++ " created works that continue to captivate audiences centuries later.\n\n"
    ++ "Featured work: \"" ++ artwork.title ++ "\" (" ++ artwork.date ++ ")\n\n"
    ++ "🏛️ Collection: The Metropolitan Museum of Art\n\n"
    ++ "What draws you to this artist\x27s work? Share your thoughts! 💭\n\n"
    ++ "#ArtHistory #" ++ artist_tag ++ " #ArtistSpotlight #FineArt #Painting"
  { post_text := post, image_url := artwork.image_url, link_url := artwork.museum_url,
    type := "artist_spotlight", artwork_details := artwork }

/-- SimplePostGenerator._technique_focus (lines 253-274). -/
def technique_focus (artwork : Artwork) (c : GenChoices) : CandidatePost :=
  let post := "🖌️ 𝗧𝗲𝗰𝗵𝗻𝗶𝗾𝘂𝗲 𝗦𝗽𝗼𝘁𝗹𝗶𝗴𝗵𝘁\n\n"
    ++ "\"" ++ artwork.title ++ "\"\n"
    ++ "by " ++ artwork.artist ++ " (" ++ artwork.date ++ ")\n\n"
    ++ "Medium: " ++ artwork.medium ++ "\n\n"
    ++ "Notice the mastery in technique and composition. "
    ++ "Each brushstroke contributes to the overall impact of the piece.\n\n"
    ++ "🏛️ The Metropolitan Museum of Art\n\n"
    ++ "What technical aspects catch your eye? 🔍\n\n"
    ++ "#ArtTechnique #Painting #FineArt #ArtHistory #Museum"
  { post_text := post, image_url := artwork.image_url, link_url := artwork.museum_url,
    type := "technique_focus", artwork_details := artwork }

/-- SimplePostGenerator._period_context (lines 276-302).  In the dictionaries
built by `get_artwork_details` the `period` key is always present, so the
`artwork.get` fallbacks to `culture` / defaults never fire. -/
def period_context (artwork : Artwork) (c : GenChoices) : CandidatePost :=
  let period := artwork.period
  let header := "📖 𝗔𝗿𝘁 𝗛𝗶𝘀𝘁𝗼𝗿𝘆 𝗖𝗼𝗻𝘁𝗲𝘅𝘁\n\n"
  let focus := if period ≠ "" then "Focus: " ++ period ++ "\n\n" else ""
  let period_tag := if period ≠ "" then period.replace " " "" else "ArtMovement"
  let post := header ++ focus
    ++ "\"" ++ artwork.title ++ "\"\n"
    ++ "by " ++ artwork.artist ++ " (" ++ artwork.date ++ ")\n\n"
    ++ "This work exemplifies the artistic ideals and techniques of its time. "
    ++ "Understanding the historical context enriches our appreciation of the artwork.\n\n"
    ++ "🏛️ The Metropolitan Museum of Art\n\n"
    ++ "What elements of the period do you notice? 🎨\n\n"
    ++ "#ArtHistory #" ++ period_tag ++ " #FineArt #Museum #Painting"
  { post_text := post, image_url := artwork.image_url, link_url := artwork.museum_url,
    type := "period_context", artwork_details := artwork }

/-- SimplePostGenerator.generate_post (lines 194-206), called from `main`
without an explicit `post_type`, so the type is a random template draw. -/
def generate_post (artwork : Artwork) (c : GenChoices) : CandidatePost :=
  let post_type := rand_choice post_templates "daily_artwork" c.typeIdx
  if post_type = "artist_spotlight" then artist_spotlight artwork c
  else if post_type = "technique_focus" then technique_focus artwork c
  else if post_type = "period_context" then period_context artwork c
  else daily_artwork artwork c

/-- The external world of one `main` invocation.  `searchHttp i` is the
request-level oracle for the search issued in while-iteration `i`;
`fetchHttp oid` the oracle for the detail fetch of artwork `oid`;
`choices oid` the random draws for the post generated from `oid`;
`publish image_url caption` the Facebook photo call (`error` = raised);
`now` the `datetime.now().isoformat()` timestamp. -/
structure Env where
  searchHttp : Nat → Nat → Except Unit (Option (List Nat))
  fetchHttp : Nat → Nat → Option ApiObject
  choices : Nat → GenChoices
  publish : String → String → Except Unit FbResponse
  now : String

/-- The inner `for obj_id in object_ids` loop of `main` (lines 521-537):
skip used ids, skip failed/unusable fetches and the unknown-artist sentinel,
otherwise append a generated post, breaking once 14 posts exist. -/
def process_ids (used : List String) (env : Env) : List Nat → List CandidatePost → List CandidatePost
  | [], new_posts => new_posts
  | obj_id :: rest, new_posts =>
    if is_used used obj_id then process_ids used env rest new_posts
    else
      match get_artwork_details obj_id (env.fetchHttp obj_id) with
      | none => process_ids used env rest new_posts
      | some artwork =>
        if artwork.artist = "Unknown Artist" then process_ids used env rest new_posts
        else
          let new_posts' := new_posts ++ [generate_post artwork (env.choices obj_id)]
          if 14 ≤ new_posts'.length then new_posts'
          else process_ids used env rest new_posts'

/-- The `while len(new_posts) < 14 and attempts < max_attempts` loop of `main`
(lines 511-539), with `fuel` the remaining attempt budget (`50 - attempts`).
Returns the generated posts together with the final attempt counter. -/
def replenish_aux (used : List String) (env : Env) :
    Nat → Nat → List CandidatePost → List CandidatePost × Nat
  | 0, attempts, new_posts => (new_posts, attempts)
  | fuel + 1, attempts, new_posts =>
    if new_posts.length < 14 then
      let object_ids := search_artworks (env.searchHttp attempts) 20
      let new_posts' := process_ids used env object_ids new_posts
      replenish_aux used env fuel (attempts + 1) new_posts'
    else (new_posts, attempts)

/-- The whole replenishment pass of `main` (lines 511-539): starts from an
empty `new_posts`, attempt counter 0 and budget 50. -/
def replenish (used : List String) (env : Env) : List CandidatePost × Nat :=
  replenish_aux used env 50 0 []

/-- Persistence writes performed by one run, in program order.  Each of
`_save_used`, `_save_log` and `save_post_queue` rewrites its whole file with
the recorded value. -/
inductive SaveEvent where
  | saveUsed (used : List String)
  | saveLog (log : List LogEntry)
  | saveQueue (queue : List CandidatePost)
deriving Repr, DecidableEq

/-- How one `main` invocation ends: a successful publish (reporting the
Facebook post id, the published artwork id and the remaining queue length),
the `sys.exit(1)` on an empty queue after the printed diagnostic, or the
`sys.exit(1)` reached through the outer `except` when `post_photo` raises. -/
inductive RunOutcome where
  | success (post_id : String) (artwork_id : Nat) (remaining : Nat)
  | noPosts (diag : String)
  | publishFailed
deriving Repr, DecidableEq

/-- Process exit status of an outcome: `sys.exit(1)` on both failure paths,
normal termination (0) after a successful publish. -/
def exitCode : RunOutcome → Nat
  | RunOutcome.success _ _ _ => 0
  | RunOutcome.noPosts _ => 1
  | RunOutcome.publishFailed => 1

/-- The persisted state the three PostTracker files decode to. -/
structure RunState where
  used : List String
  log : List LogEntry
  queueFile : List CandidatePost
deriving Repr, DecidableEq

/-- The filter at line 505 of `main`: drop queue entries whose artwork id is
already in the used set. -/
def filter_queue (used : List String) (queue : List CandidatePost) : List CandidatePost :=
  queue.filter (fun p => !(is_used used p.artwork_details.object_id))

/-- Lines 546-584 of `main`: select the queue head, publish it, and on
success commit in order (mark_used + save, log_post + save, pop head + save).
`s` carries the persisted state as of entry; `queue` is the in-memory queue;
`events` the writes already performed earlier in the run. -/
def select_and_publish (s : RunState) (env : Env) :
    List CandidatePost → List SaveEvent → RunState × List SaveEvent × RunOutcome
  | [], events => (s, events, RunOutcome.noPosts "❌ No posts available in queue!")
  | today_post :: rest, events =>
    match env.publish today_post.image_url today_post.post_text with
    | Except.error _ => (s, events, RunOutcome.publishFailed)
    | Except.ok response =>
      let post_id := response.id.getD "unknown"
      let artwork := today_post.artwork_details
      let used' := mark_used s.used artwork.object_id
      let entry := log_post_entry env.now
        { id := some post_id, object_id := some artwork.object_id,
          title := some artwork.title, artist := some artwork.artist }
      let log' := s.log ++ [entry]
      ({ used := used', log := log', queueFile := rest },
       events ++ [SaveEvent.saveUsed used', SaveEvent.saveLog log', SaveEvent.saveQueue rest],
       RunOutcome.success post_id artwork.object_id rest.length)

/-- `main` (generate_and_post.py lines 486-595) on already-loaded state:
filter the queue against the used set, replenish (persisting the extended
queue) when the filtered queue has fewer than 7 entries, then select, publish
and commit.  Returns the persisted state after the run, the file writes in
order, and the outcome. -/
def main_run (s : RunState) (env : Env) : RunState × List SaveEvent × RunOutcome :=
  let queue0 := filter_queue s.used s.queueFile
  if queue0.length < 7 then
    let new_posts := (replenish s.used env).1
    let queue1 := queue0 ++ new_posts
    select_and_publish { s with queueFile := queue1 } env queue1 [SaveEvent.saveQueue queue1]
  else
    select_and_publish s env queue0 []

/-- `main` starting from the persisted files, via the PostTracker loaders. -/
def main_from_files (usedF : FileState (List String)) (logF : FileState (List LogEntry))
    (queueF : FileState (List CandidatePost)) (env : Env) :
    RunState × List SaveEvent × RunOutcome :=
  main_run { used := load_used usedF, log := load_log logF, queueFile := get_post_queue queueF } env

/-- A sequence of invocations of `main`, each starting from the files the
previous one persisted; collects the artwork ids of the successful publishes
in run order. -/
def main_runs : RunState → List Env → RunState × List Nat
  | s, [] => (s, [])
  | s, env :: rest =>
    let r := main_run s env
    let r' := main_runs r.1 rest
    match r.2.2 with
    | RunOutcome.success _ artwork_id _ => (r'.1, artwork_id :: r'.2)
    | _ => (r'.1, r'.2)

/-- WikidataArtistScraper.query_wikidata (artist_scraper.py lines 67-88) with
`fuel` the remaining iterations of `for attempt in range(max_retries)`.
`http attempt` is the response to the request of that attempt (`none` for a
raised exception).  Returns the result together with the backoff sleeps
(`2 ** attempt` seconds) performed between failed attempts. -/
def query_wikidata_aux {α : Type} (http : Nat → Option α) (max_retries : Nat) :
    Nat → Nat → List Nat → Option α × List Nat
  | 0, _, sleeps => (none, sleeps)
  | fuel + 1, attempt, sleeps =>
    match http attempt with
    | some bindings => (some bindings, sleeps)
    | none =>
      if attempt < max_retries - 1 then
        query_wikidata_aux http max_retries fuel (attempt + 1) (sleeps ++ [2 ^ attempt])
      else (none, sleeps)

/-- WikidataArtistScraper.query_wikidata with its default `max_retries = 3`. -/
def query_wikidata {α : Type} (http : Nat → Option α) : Option α × List Nat :=
  query_wikidata_aux http 3 3 0 []

/-- Modelled from the spec: the spec asserts that every SearchSource search
call is "retried with exponential backoff — fixed base, doubling per attempt,
bounded attempt count, default 3 attempts" before the failure is absorbed as
an empty result.  No such retry loop exists in `MetMuseumAPI.search_artworks`
in the source; this definition renders the retried variant the spec describes,
for comparison with `search_artworks`. -/
def search_retried_spec_aux (http : Nat → Except Unit (Option (List Nat))) (limit : Nat) :
    Nat → Nat → List Nat
  | 0, _ => []
  | fuel + 1, attempt =>
    match http attempt with
    | Except.error _ => search_retried_spec_aux http limit fuel (attempt + 1)
    | Except.ok objectIDs =>
      let object_ids := objectIDs.getD []
      if object_ids.isEmpty then [] else object_ids.take limit

/-- Modelled from the spec: `search_artworks` as it would behave with the
spec's default three retried attempts. -/
def search_retried_spec (http : Nat → Except Unit (Option (List Nat))) (limit : Nat) : List Nat :=
  search_retried_spec_aux http limit 3 0

/-! Basic lemmas about the set model and the post generator. -/

theorem mem_setInsert_self (s : List String) (x : String) : x ∈ setInsert s x := by
  unfold setInsert
  split
  · next h => exact List.elem_iff.1 h
  · exact List.mem_append_right _ (List.mem_singleton.2 rfl)

theorem mem_setInsert_of_mem (s : List String) (x y : String) (h : y ∈ s) :
    y ∈ setInsert s x := by
  unfold setInsert
  split
  · exact h
  · exact List.mem_append_left _ h

theorem is_used_eq_false_iff (used : List String) (object_id : Nat) :
    is_used used object_id = false ↔ toString object_id ∉ used := by
  simp [is_used]

theorem mem_mark_used_self (used : List String) (object_id : Nat) :
    toString object_id ∈ mark_used used object_id :=
  mem_setInsert_self used (toString object_id)

theorem generate_post_artwork_details (a : Artwork) (c : GenChoices) :
    (generate_post a c).artwork_details = a := by
  simp only [generate_post]
  split_ifs <;> rfl

theorem get_artwork_details_eq_some (object_id : Nat) (http : Nat → Option ApiObject)
    (a : Artwork) (h : get_artwork_details object_id http = some a) :
    a.object_id = object_id ∧ a.image_url ≠ "" := by
  cases hh : http 0 with
  | none =>
    simp only [get_artwork_details, hh] at h
    exact Option.noConfusion h
  | some data =>
    simp only [get_artwork_details, hh] at h
    split at h
    · exact absurd h (by simp)
    · next himg =>
      injection h with h
      subst h
      exact ⟨rfl, himg⟩

theorem mem_filter_queue (used : List String) (q : List CandidatePost) (p : CandidatePost)
    (h : p ∈ filter_queue used q) : is_used used p.artwork_details.object_id = false := by
  unfold filter_queue at h
  have h2 := (List.mem_filter.1 h).2
  simpa using h2

/-! Lemmas about the replenishment loop. -/

/-- A post the inner loop of `main` is allowed to append: its artwork id is
not in the used set, the detail fetch of that id succeeds with a usable
artwork (an image is present), and the artist is not the unknown-artist
sentinel. -/
def post_ok (used : List String) (env : Env) (p : CandidatePost) : Prop :=
  is_used used p.artwork_details.object_id = false ∧
  get_artwork_details p.artwork_details.object_id (env.fetchHttp p.artwork_details.object_id)
    = some p.artwork_details ∧
  p.artwork_details.artist ≠ "Unknown Artist" ∧
  p.artwork_details.image_url ≠ ""

theorem process_ids_mem (used : List String) (env : Env) (ids : List Nat) :
    ∀ (acc : List CandidatePost) (p : CandidatePost),
      p ∈ process_ids used env ids acc → p ∈ acc ∨ post_ok used env p := by
  induction ids with
  | nil =>
    intro acc p h
    exact Or.inl (by simpa [process_ids] using h)
  | cons obj_id rest ih =>
    intro acc p h
    simp only [process_ids] at h
    split at h
    · exact ih acc p h
    · split at h
      · exact ih acc p h
      · next artwork hdet =>
        split at h
        · exact ih acc p h
        · next hart =>
          obtain ⟨hoid, himg⟩ := get_artwork_details_eq_some _ _ _ hdet
          have hg : post_ok used env (generate_post artwork (env.choices obj_id)) := by
            refine ⟨?_, ?_, ?_, ?_⟩ <;>
              rw [generate_post_artwork_details]
            · rw [hoid]
              simpa using ‹¬ is_used used obj_id = true›
            · rw [hoid]; exact hdet
            · exact hart
            · exact himg
          split at h
          · rcases List.mem_append.1 h with h' | h'
            · exact Or.inl h'
            · rw [List.mem_singleton.1 h']
              exact Or.inr hg
          · rcases ih _ p h with h' | h'
            · rcases List.mem_append.1 h' with h'' | h''
              · exact Or.inl h''
              · rw [List.mem_singleton.1 h'']
                exact Or.inr hg
            · exact Or.inr h'

theorem process_ids_length (used : List String) (env : Env) (ids : List Nat) :
    ∀ (acc : List CandidatePost), acc.length < 14 →
      (process_ids used env ids acc).length ≤ 14 := by
  induction ids with
  | nil =>
    intro acc hacc
    simpa [process_ids] using Nat.le_of_lt hacc
  | cons obj_id rest ih =>
    intro acc hacc
    simp only [process_ids]
    split
    · exact ih acc hacc
    · split
      · exact ih acc hacc
      · split
        · exact ih acc hacc
        · split
          · next hstop =>
            rw [List.length_append]
            simp only [List.length_singleton]
            omega
          · next hstop =>
            apply ih
            rw [List.length_append] at hstop ⊢
            simp only [List.length_singleton] at hstop ⊢
            omega

theorem process_ids_skip (used : List String) (env : Env) (ids : List Nat)
    (h : ∀ oid ∈ ids, is_used used oid = true ∨
      ∀ a, get_artwork_details oid (env.fetchHttp oid) = some a → a.artist = "Unknown Artist") :
    ∀ acc : List CandidatePost, process_ids used env ids acc = acc := by
  induction ids with
  | nil => intro acc; simp [process_ids]
  | cons obj_id rest ih =>
    intro acc
    have hrest : ∀ oid ∈ rest, is_used used oid = true ∨
        ∀ a, get_artwork_details oid (env.fetchHttp oid) = some a →
          a.artist = "Unknown Artist" :=
      fun oid hm => h oid (List.mem_cons_of_mem _ hm)
    simp only [process_ids]
    split
    · exact ih hrest acc
    · next hnu =>
      rcases h obj_id (List.mem_cons_self _ _) with hused | hdet
      · exact absurd hused hnu
      · split
        · exact ih hrest acc
        · next artwork hsome =>
          split
          · exact ih hrest acc
          · next hart => exact absurd (hdet artwork hsome) hart

theorem replenish_aux_mem (used : List String) (env : Env) (fuel : Nat) :
    ∀ (attempts : Nat) (acc : List CandidatePost) (p : CandidatePost),
      p ∈ (replenish_aux used env fuel attempts acc).1 → p ∈ acc ∨ post_ok used env p := by
  induction fuel with
  | zero =>
    intro attempts acc p h
    exact Or.inl (by simpa [replenish_aux] using h)
  | succ n ih =>
    intro attempts acc p h
    simp only [replenish_aux] at h
    split at h
    · rcases ih (attempts + 1) _ p h with h' | h'
      · exact process_ids_mem used env _ acc p h'
      · exact Or.inr h'
    · exact Or.inl h

theorem replenish_mem (used : List String) (env : Env) (p : CandidatePost)
    (h : p ∈ (replenish used env).1) : post_ok used env p := by
  rcases replenish_aux_mem used env 50 0 [] p h with h' | h'
  · exact absurd h' (List.not_mem_nil p)
  · exact h'

theorem replenish_aux_length (used : List String) (env : Env) (fuel : Nat) :
    ∀ (attempts : Nat) (acc : List CandidatePost), acc.length ≤ 14 →
      (replenish_aux used env fuel attempts acc).1.length ≤ 14 := by
  induction fuel with
  | zero =>
    intro attempts acc hacc
    simpa [replenish_aux] using hacc
  | succ n ih =>
    intro attempts acc hacc
    simp only [replenish_aux]
    split
    · next hlt => exact ih (attempts + 1) _ (process_ids_length used env _ acc hlt)
    · exact hacc

theorem replenish_length (used : List String) (env : Env) :
    (replenish used env).1.length ≤ 14 :=
  replenish_aux_length used env 50 0 [] (by simp)

theorem replenish_aux_skip (used : List String) (env : Env)
    (h : ∀ attempt oid, oid ∈ search_artworks (env.searchHttp attempt) 20 →
      is_used used oid = true ∨
      ∀ a, get_artwork_details oid (env.fetchHttp oid) = some a → a.artist = "Unknown Artist")
    (fuel : Nat) :
    ∀ attempts : Nat, replenish_aux used env fuel attempts [] = ([], attempts + fuel) := by
  induction fuel with
  | zero => intro attempts; simp [replenish_aux]
  | succ n ih =>
    intro attempts
    simp only [replenish_aux]
    split
    · rw [process_ids_skip used env _ (h attempts) [], ih (attempts + 1)]
      congr 1
      omega
    · next hc => exact absurd (by simp : ([] : List CandidatePost).length < 14) hc

theorem replenish_skip (used : List String) (env : Env)
    (h : ∀ attempt oid, oid ∈ search_artworks (env.searchHttp attempt) 20 →
      is_used used oid = true ∨
      ∀ a, get_artwork_details oid (env.fetchHttp oid) = some a → a.artist = "Unknown Artist") :
    replenish used env = ([], 50) := by
  unfold replenish
  rw [replenish_aux_skip used env h 50 0]

/-! Lemmas about selection, publication and the commit sequence. -/

theorem sp_nil (s : RunState) (env : Env) (events : List SaveEvent) :
    select_and_publish s env [] events =
      (s, events, RunOutcome.noPosts "❌ No posts available in queue!") := rfl

theorem sp_cons_err (s : RunState) (env : Env) (today : CandidatePost)
    (rest : List CandidatePost) (events : List SaveEvent)
    (h : env.publish today.image_url today.post_text = Except.error ()) :
    select_and_publish s env (today :: rest) events = (s, events, RunOutcome.publishFailed) := by
  simp only [select_and_publish]
  rw [h]

theorem sp_cons_ok (s : RunState) (env : Env) (today : CandidatePost)
    (rest : List CandidatePost) (events : List SaveEvent) (resp : FbResponse)
    (h : env.publish today.image_url today.post_text = Except.ok resp) :
    select_and_publish s env (today :: rest) events =
      ({ used := mark_used s.used today.artwork_details.object_id,
         log := s.log ++ [log_post_entry env.now
           { id := some (resp.id.getD "unknown"),
             object_id := some today.artwork_details.object_id,
             title := some today.artwork_details.title,
             artist := some today.artwork_details.artist }],
         queueFile := rest },
       events ++ [SaveEvent.saveUsed (mark_used s.used today.artwork_details.object_id),
         SaveEvent.saveLog (s.log ++ [log_post_entry env.now
           { id := some (resp.id.getD "unknown"),
             object_id := some today.artwork_details.object_id,
             title := some today.artwork_details.title,
             artist := some today.artwork_details.artist }]),
         SaveEvent.saveQueue rest],
       RunOutcome.success (resp.id.getD "unknown") today.artwork_details.object_id rest.length) := by
  simp only [select_and_publish]
  rw [h]

theorem sp_inv (s : RunState) (env : Env) (queue : List CandidatePost) (events : List SaveEvent)
    (s' : RunState) (ev : List SaveEvent) (out : RunOutcome)
    (h : select_and_publish s env queue events = (s', ev, out)) :
    (queue = [] ∧ s' = s ∧ ev = events ∧
      out = RunOutcome.noPosts "❌ No posts available in queue!") ∨
    (∃ today rest, queue = today :: rest ∧
      env.publish today.image_url today.post_text = Except.error () ∧
      s' = s ∧ ev = events ∧ out = RunOutcome.publishFailed) ∨
    (∃ today rest resp, queue = today :: rest ∧
      env.publish today.image_url today.post_text = Except.ok resp ∧
      s'.used = mark_used s.used today.artwork_details.object_id ∧
      s'.log = s.log ++ [log_post_entry env.now
        { id := some (resp.id.getD "unknown"),
          object_id := some today.artwork_details.object_id,
          title := some today.artwork_details.title,
          artist := some today.artwork_details.artist }] ∧
      s'.queueFile = rest ∧
      ev = events ++ [SaveEvent.saveUsed s'.used, SaveEvent.saveLog s'.log,
        SaveEvent.saveQueue s'.queueFile] ∧
      out = RunOutcome.success (resp.id.getD "unknown")
        today.artwork_details.object_id rest.length) := by
  cases queue with
  | nil =>
    rw [sp_nil] at h
    simp only [Prod.mk.injEq] at h
    exact Or.inl ⟨rfl, h.1.symm, h.2.1.symm, h.2.2.symm⟩
  | cons today rest =>
    cases hp : env.publish today.image_url today.post_text with
    | error u =>
      cases u
      rw [sp_cons_err s env today rest events hp] at h
      simp only [Prod.mk.injEq] at h
      exact Or.inr (Or.inl ⟨today, rest, rfl, hp, h.1.symm, h.2.1.symm, h.2.2.symm⟩)
    | ok resp =>
      rw [sp_cons_ok s env today rest events resp hp] at h
      simp only [Prod.mk.injEq] at h
      obtain ⟨hs, hev, hout⟩ := h
      subst hs
      subst hev
      subst hout
      exact Or.inr (Or.inr ⟨today, rest, resp, rfl, hp, rfl, rfl, rfl, rfl, rfl⟩)

/-! Lemmas about one whole `main` invocation. -/

theorem main_run_inv (s : RunState) (env : Env) :
    ((filter_queue s.used s.queueFile).length < 7 ∧
      main_run s env = select_and_publish
        { used := s.used, log := s.log,
          queueFile := filter_queue s.used s.queueFile ++ (replenish s.used env).1 } env
        (filter_queue s.used s.queueFile ++ (replenish s.used env).1)
        [SaveEvent.saveQueue (filter_queue s.used s.queueFile ++ (replenish s.used env).1)]) ∨
    (7 ≤ (filter_queue s.used s.queueFile).length ∧
      main_run s env = select_and_publish s env (filter_queue s.used s.queueFile) []) := by
  by_cases hc : (filter_queue s.used s.queueFile).length < 7
  · refine Or.inl ⟨hc, ?_⟩
    simp only [main_run]
    rw [if_pos hc]
  · refine Or.inr ⟨by omega, ?_⟩
    simp only [main_run]
    rw [if_neg hc]

/-- Every member of the in-memory queue at Selecting time has an artwork id
outside the used set loaded at the start of the run. -/
theorem selecting_queue_not_used (s : RunState) (env : Env) (p : CandidatePost)
    (h : p ∈ filter_queue s.used s.queueFile ++ (replenish s.used env).1) :
    is_used s.used p.artwork_details.object_id = false := by
  rcases List.mem_append.1 h with h' | h'
  · exact mem_filter_queue s.used s.queueFile p h'
  · exact (replenish_mem s.used env p h').1

theorem sp_used_mono (s : RunState) (env : Env) (queue : List CandidatePost)
    (events : List SaveEvent) (x : String) (hx : x ∈ s.used) :
    x ∈ (select_and_publish s env queue events).1.used := by
  cases queue with
  | nil => exact hx
  | cons today rest =>
    cases hp : env.publish today.image_url today.post_text with
    | error u =>
      cases u
      rw [sp_cons_err s env today rest events hp]
      exact hx
    | ok resp =>
      rw [sp_cons_ok s env today rest events resp hp]
      exact mem_setInsert_of_mem _ _ _ hx

theorem main_run_used_mono (s : RunState) (env : Env) (x : String) (hx : x ∈ s.used) :
    x ∈ (main_run s env).1.used := by
  rcases main_run_inv s env with ⟨_, heq⟩ | ⟨_, heq⟩ <;> rw [heq]
  · exact sp_used_mono _ env _ _ x hx
  · exact sp_used_mono s env _ _ x hx


theorem main_run_success_inv (s : RunState) (env : Env) (pid : String) (aid : Nat) (rem : Nat)
    (h : (main_run s env).2.2 = RunOutcome.success pid aid rem) :
    is_used s.used aid = false ∧
    (main_run s env).1.used = mark_used s.used aid ∧
    ∃ pre, (main_run s env).2.1 = pre ++
        [SaveEvent.saveUsed (main_run s env).1.used,
         SaveEvent.saveLog (main_run s env).1.log,
         SaveEvent.saveQueue (main_run s env).1.queueFile] ∧
      ∀ e ∈ pre, ∃ q, e = SaveEvent.saveQueue q := by
  rcases main_run_inv s env with ⟨hlt, heq⟩ | ⟨hge, heq⟩
  · have h' : select_and_publish
        { used := s.used, log := s.log,
          queueFile := filter_queue s.used s.queueFile ++ (replenish s.used env).1 } env
        (filter_queue s.used s.queueFile ++ (replenish s.used env).1)
        [SaveEvent.saveQueue (filter_queue s.used s.queueFile ++ (replenish s.used env).1)] =
        ((main_run s env).1, (main_run s env).2.1, RunOutcome.success pid aid rem) := by
      rw [← h, ← heq]
    rcases sp_inv _ _ _ _ _ _ _ h' with ⟨_, _, _, hout⟩ | ⟨t, r, _, _, _, _, hout⟩ |
      ⟨t, r, resp, hq, hp, hu, hl, hqf, hev, hout⟩
    · exact absurd hout (by simp)
    · exact absurd hout (by simp)
    · injection hout with hpid haid hrem
      subst haid
      have ht : t ∈ filter_queue s.used s.queueFile ++ (replenish s.used env).1 :=
        hq ▸ List.mem_cons_self t r
      refine ⟨selecting_queue_not_used s env t ht, hu, ?_⟩
      refine ⟨[SaveEvent.saveQueue (filter_queue s.used s.queueFile ++ (replenish s.used env).1)],
        hev, ?_⟩
      intro e he
      exact ⟨_, List.mem_singleton.1 he⟩
  · have h' : select_and_publish s env (filter_queue s.used s.queueFile) [] =
        ((main_run s env).1, (main_run s env).2.1, RunOutcome.success pid aid rem) := by
      rw [← h, ← heq]
    rcases sp_inv _ _ _ _ _ _ _ h' with ⟨_, _, _, hout⟩ | ⟨t, r, _, _, _, _, hout⟩ |
      ⟨t, r, resp, hq, hp, hu, hl, hqf, hev, hout⟩
    · exact absurd hout (by simp)
    · exact absurd hout (by simp)
    · injection hout with hpid haid hrem
      subst haid
      have ht : t ∈ filter_queue s.used s.queueFile :=
        hq ▸ List.mem_cons_self t r
      refine ⟨mem_filter_queue s.used s.queueFile t ht, hu, ?_⟩
      refine ⟨[], hev, ?_⟩
      intro e he
      exact absurd he (List.not_mem_nil e)

theorem main_run_publishFailed_inv (s : RunState) (env : Env)
    (h : (main_run s env).2.2 = RunOutcome.publishFailed) :
    (main_run s env).1.used = s.used ∧
    (main_run s env).1.log = s.log ∧
    (∀ e ∈ (main_run s env).2.1, ∃ q, e = SaveEvent.saveQueue q) ∧
    (7 ≤ (filter_queue s.used s.queueFile).length →
      (main_run s env).1.queueFile = s.queueFile ∧ (main_run s env).2.1 = []) ∧
    ((filter_queue s.used s.queueFile).length < 7 →
      (main_run s env).1.queueFile =
        filter_queue s.used s.queueFile ++ (replenish s.used env).1) := by
  rcases main_run_inv s env with ⟨hlt, heq⟩ | ⟨hge, heq⟩
  · have h' : select_and_publish
        { used := s.used, log := s.log,
          queueFile := filter_queue s.used s.queueFile ++ (replenish s.used env).1 } env
        (filter_queue s.used s.queueFile ++ (replenish s.used env).1)
        [SaveEvent.saveQueue (filter_queue s.used s.queueFile ++ (replenish s.used env).1)] =
        ((main_run s env).1, (main_run s env).2.1, RunOutcome.publishFailed) := by
      rw [← h, ← heq]
    rcases sp_inv _ _ _ _ _ _ _ h' with ⟨_, _, _, hout⟩ | ⟨t, r, _, hp, hs, hev, _⟩ |
      ⟨t, r, resp, hq, hp, hu, hl, hqf, hev, hout⟩
    · exact absurd hout (by simp)
    · refine ⟨by rw [hs], by rw [hs], ?_, ?_, ?_⟩
      · intro e he
        rw [hev] at he
        exact ⟨_, List.mem_singleton.1 he⟩
      · intro hge'
        omega
      · intro _
        rw [hs]
    · exact absurd hout (by simp)
  · have h' : select_and_publish s env (filter_queue s.used s.queueFile) [] =
        ((main_run s env).1, (main_run s env).2.1, RunOutcome.publishFailed) := by
      rw [← h, ← heq]
    rcases sp_inv _ _ _ _ _ _ _ h' with ⟨_, _, _, hout⟩ | ⟨t, r, _, hp, hs, hev, _⟩ |
      ⟨t, r, resp, hq, hp, hu, hl, hqf, hev, hout⟩
    · exact absurd hout (by simp)
    · refine ⟨by rw [hs], by rw [hs], ?_, ?_, ?_⟩
      · intro e he
        rw [hev] at he
        exact absurd he (List.not_mem_nil e)
      · intro _
        exact ⟨by rw [hs], hev⟩
      · intro hlt'
        omega
    · exact absurd hout (by simp)

theorem main_runs_spec (envs : List Env) : ∀ s : RunState,
    (main_runs s envs).2.Nodup ∧
    (∀ x ∈ s.used, x ∈ (main_runs s envs).1.used) ∧
    (∀ a ∈ (main_runs s envs).2,
      toString a ∉ s.used ∧ toString a ∈ (main_runs s envs).1.used) := by
  induction envs with
  | nil =>
    intro s
    refine ⟨List.nodup_nil, fun x hx => hx, ?_⟩
    intro a ha
    exact absurd ha (List.not_mem_nil a)
  | cons env rest ih =>
    intro s
    obtain ⟨ih1, ih2, ih3⟩ := ih (main_run s env).1
    simp only [main_runs]
    cases hout : (main_run s env).2.2 with
    | success pid aid rem =>
      obtain ⟨hnu, husedeq, -⟩ := main_run_success_inv s env pid aid rem hout
      have haid_not : toString aid ∉ s.used := (is_used_eq_false_iff s.used aid).1 hnu
      have haid_in : toString aid ∈ (main_run s env).1.used := by
        rw [husedeq]
        exact mem_mark_used_self s.used aid
      refine ⟨?_, ?_, ?_⟩
      · refine List.nodup_cons.2 ⟨?_, ih1⟩
        intro ha
        exact absurd haid_in (ih3 aid ha).1
      · intro x hx
        exact ih2 x (main_run_used_mono s env x hx)
      · intro a ha
        rcases List.mem_cons.1 ha with rfl | ha'
        · exact ⟨haid_not, ih2 _ haid_in⟩
        · refine ⟨?_, (ih3 a ha').2⟩
          intro hmem
          exact absurd (main_run_used_mono s env _ hmem) (ih3 a ha').1
    | noPosts d =>
      refine ⟨ih1, ?_, ?_⟩
      · intro x hx
        exact ih2 x (main_run_used_mono s env x hx)
      · intro a ha
        refine ⟨?_, (ih3 a ha).2⟩
        intro hmem
        exact absurd (main_run_used_mono s env _ hmem) (ih3 a ha).1
    | publishFailed =>
      refine ⟨ih1, ?_, ?_⟩
      · intro x hx
        exact ih2 x (main_run_used_mono s env x hx)
      · intro a ha
        refine ⟨?_, (ih3 a ha).2⟩
        intro hmem
        exact absurd (main_run_used_mono s env _ hmem) (ih3 a ha).1

/-! Concrete states and environments for the scenario theorems. -/

/-- The artwork of the spec's success scenario: id 42, "Starry Night". -/
def starry_artwork : Artwork :=
  { object_id := 42, title := "Starry Night", artist := "Vincent van Gogh",
    date := "1889", medium := "Oil on canvas", culture := "", period := "",
    image_url := "http://img/42.jpg", museum_url := "http://met/42",
    department := "European Paintings", dimensions := "", classification := "Paintings" }

/-- A queued candidate post for `starry_artwork`. -/
def starry_post : CandidatePost :=
  { post_text := "starry text", image_url := "http://img/42.jpg",
    link_url := "http://met/42", type := "daily_artwork",
    artwork_details := starry_artwork }

/-- An artwork (id 1) whose id is already in the used set in the stale-queue
scenario. -/
def stale_artwork : Artwork :=
  { object_id := 1, title := "Stale", artist := "A", date := "1700",
    medium := "Oil", culture := "", period := "", image_url := "http://img/1.jpg",
    museum_url := "http://met/1", department := "", dimensions := "",
    classification := "" }

/-- The queued post for `stale_artwork`. -/
def stale_post : CandidatePost :=
  { post_text := "stale text", image_url := "http://img/1.jpg",
    link_url := "http://met/1", type := "daily_artwork",
    artwork_details := stale_artwork }

/-- A second queued artwork (id 2). -/
def second_artwork : Artwork :=
  { object_id := 2, title := "Second", artist := "B", date := "1800",
    medium := "Oil", culture := "", period := "", image_url := "http://img/2.jpg",
    museum_url := "http://met/2", department := "", dimensions := "",
    classification := "" }

/-- The queued post for `second_artwork`. -/
def second_post : CandidatePost :=
  { post_text := "second text", image_url := "http://img/2.jpg",
    link_url := "http://met/2", type := "daily_artwork",
    artwork_details := second_artwork }

/-- Environment where every search request fails and the publish succeeds
returning Facebook post id 999. -/
def env_success : Env :=
  { searchHttp := fun _ _ => Except.error (),
    fetchHttp := fun _ _ => none,
    choices := fun _ => { typeIdx := 0, apprIdx := 0, questIdx := 0 },
    publish := fun _ _ => Except.ok { id := some "999" },
    now := "2026-10-12T00:00:00" }

/-- Environment where every remote call fails, the publish included. -/
def env_all_fail : Env :=
  { searchHttp := fun _ _ => Except.error (),
    fetchHttp := fun _ _ => none,
    choices := fun _ => { typeIdx := 0, apprIdx := 0, questIdx := 0 },
    publish := fun _ _ => Except.error (),
    now := "2026-10-12T00:00:00" }

/-- The Met objects payload for artwork 5, fully usable. -/
def vermeer_api : ApiObject :=
  { title := some "Girl with a Pearl Earring",
    artistDisplayName := some "Johannes Vermeer",
    objectDate := some "1665", medium := some "Oil on canvas",
    culture := none, period := none,
    primaryImage := some "http://img/5.jpg", objectURL := some "http://met/5",
    department := none, dimensions := none, classification := none }

/-- The artwork dictionary `get_artwork_details` builds from `vermeer_api`. -/
def vermeer_artwork : Artwork :=
  { object_id := 5, title := "Girl with a Pearl Earring",
    artist := "Johannes Vermeer", date := "1665", medium := "Oil on canvas",
    culture := "", period := "", image_url := "http://img/5.jpg",
    museum_url := "http://met/5", department := "", dimensions := "",
    classification := "" }

/-- The post generated for `vermeer_artwork` with all random draws 0. -/
def vermeer_post : CandidatePost :=
  generate_post vermeer_artwork { typeIdx := 0, apprIdx := 0, questIdx := 0 }

/-- Environment whose first two search iterations both return artwork id 5
(overlapping result lists), with a usable detail fetch for id 5. -/
def env_overlap : Env :=
  { searchHttp := fun attempt _ =>
      if attempt ≤ 1 then Except.ok (some [5]) else Except.error (),
    fetchHttp := fun oid _ => if oid = 5 then some vermeer_api else none,
    choices := fun _ => { typeIdx := 0, apprIdx := 0, questIdx := 0 },
    publish := fun _ _ => Except.error (),
    now := "2026-10-12T00:00:00" }

/-- Success-scenario state: queue holds exactly the Starry Night candidate,
used set and log are empty. -/
def state_42 : RunState := { used := [], log := [], queueFile := [starry_post] }

/-- The log entry a successful publish of artwork 42 with Facebook id 999
appends. -/
def entry_999 : LogEntry :=
  { timestamp := "2026-10-12T00:00:00", post_id := "999", object_id := some 42,
    title := "Starry Night", artist := "Vincent van Gogh" }

/-- Stale-queue state: artwork 1 is already used but still queued ahead of
artwork 2. -/
def state_stale : RunState :=
  { used := ["1"], log := [], queueFile := [stale_post, second_post] }

/-- Two fresh queued candidates, nothing used. -/
def state_two : RunState :=
  { used := [], log := [], queueFile := [starry_post, second_post] }

/-- A queue already holding seven candidates (above the replenish threshold). -/
def state_seven : RunState :=
  { used := [], log := [], queueFile := List.replicate 7 starry_post }

/-- Completely empty starting state. -/
def state_empty : RunState := { used := [], log := [], queueFile := [] }

/-- A search transport oracle that fails on the first request and would
succeed on any retry. -/
def http_flaky : Nat → Except Unit (Option (List Nat)) :=
  fun n => if n = 0 then Except.error () else Except.ok (some [5])

theorem setInsert_contains_self (s : List String) (x : String) :
    (setInsert s x).contains x = true := by
  simpa using mem_setInsert_self s x

theorem setInsert_idem (s : List String) (x : String) :
    setInsert (setInsert s x) x = setInsert s x := by
  show (if (setInsert s x).contains x then setInsert s x else setInsert s x ++ [x])
    = setInsert s x
  rw [if_pos (setInsert_contains_self s x)]

/-! Claim theorems. -/

/-- C1: across any sequence of runs, no artwork id is published twice; every
published id was outside the used set at the start and is in the used set at
the end, and no candidate at Selecting time carries an id already in the used
set loaded for that run. -/
theorem c1_no_duplicate_publication (s : RunState) (envs : List Env) :
    (main_runs s envs).2.Nodup ∧
    (∀ a ∈ (main_runs s envs).2,
      toString a ∉ s.used ∧ toString a ∈ (main_runs s envs).1.used) ∧
    (∀ (env : Env) (p : CandidatePost),
      p ∈ filter_queue s.used s.queueFile ++ (replenish s.used env).1 →
      is_used s.used p.artwork_details.object_id = false) := by
  obtain ⟨h1, -, h3⟩ := main_runs_spec envs s
  exact ⟨h1, h3, fun env p hp => selecting_queue_not_used s env p hp⟩

/-- Witness for C1: two consecutive runs from a two-candidate queue publish
ids 42 then 2, with no duplicate, and 42 lands in the used set. -/
theorem c1_no_duplicate_publication_witness :
    (main_runs state_two [env_success, env_success]).2.Nodup ∧
    (toString 42 ∉ state_two.used ∧
      toString 42 ∈ (main_runs state_two [env_success, env_success]).1.used) ∧
    is_used state_two.used starry_post.artwork_details.object_id = false :=
  ⟨(c1_no_duplicate_publication state_two [env_success, env_success]).1,
   (c1_no_duplicate_publication state_two [env_success, env_success]).2.1 42 (by decide),
   (c1_no_duplicate_publication state_two [env_success, env_success]).2.2 env_success
     starry_post (by decide)⟩

/-- C2: on a successful publish the run's writes end with exactly
save-used, then save-log, then save-queue, preceded only by the optional
replenishment queue checkpoint; and the spec's scenario (queue = [id 42],
empty used set, publish returns id 999) ends with used = \x7b"42"\x7d, one log
entry referencing 999/42, and an empty queue. -/
theorem c2_commit_order :
    (∀ (s : RunState) (env : Env) (pid : String) (aid : Nat) (rem : Nat),
      (main_run s env).2.2 = RunOutcome.success pid aid rem →
      ∃ pre, (main_run s env).2.1 = pre ++
          [SaveEvent.saveUsed (main_run s env).1.used,
           SaveEvent.saveLog (main_run s env).1.log,
           SaveEvent.saveQueue (main_run s env).1.queueFile] ∧
        ∀ e ∈ pre, ∃ q, e = SaveEvent.saveQueue q) ∧
    main_run state_42 env_success =
      ({ used := ["42"], log := [entry_999], queueFile := [] },
       [SaveEvent.saveQueue [starry_post], SaveEvent.saveUsed ["42"],
        SaveEvent.saveLog [entry_999], SaveEvent.saveQueue []],
       RunOutcome.success "999" 42 0) :=
  ⟨fun s env pid aid rem h => (main_run_success_inv s env pid aid rem h).2.2,
   by decide⟩

/-- Witness for C2: the ordering statement instantiated at the success
scenario. -/
theorem c2_commit_order_witness :
    ∃ pre, (main_run state_42 env_success).2.1 = pre ++
        [SaveEvent.saveUsed (main_run state_42 env_success).1.used,
         SaveEvent.saveLog (main_run state_42 env_success).1.log,
         SaveEvent.saveQueue (main_run state_42 env_success).1.queueFile] ∧
      ∀ e ∈ pre, ∃ q, e = SaveEvent.saveQueue q :=
  c2_commit_order.1 state_42 env_success "999" 42 0 (by decide)

/-- C3 counterexample: with a stale head (id 1 already used) and a publish
failure, the persisted queue after the run has length 1 while the pre-run
queue had length 2 — the claim's "queue contents after equal contents before,
for every starting state" is false because the Loading filter and the
replenishment checkpoint already rewrote the queue file. -/
theorem c3_publish_failure_counterexample :
    (main_run state_stale env_all_fail).2.2 = RunOutcome.publishFailed ∧
    (main_run state_stale env_all_fail).1.queueFile.length ≠
      state_stale.queueFile.length := by
  decide

/-- C3 amended: if the publish fails, no commit occurs — the used set and the
log are unchanged, every write the run performed is a queue write, and the
head is not popped: with no replenishment (filtered queue ≥ 7) the queue file
is untouched, and otherwise it equals the filtered-and-extended queue saved
at the replenishment checkpoint. -/
theorem c3_publish_failure_amended (s : RunState) (env : Env)
    (h : (main_run s env).2.2 = RunOutcome.publishFailed) :
    (main_run s env).1.used = s.used ∧
    (main_run s env).1.log = s.log ∧
    (∀ e ∈ (main_run s env).2.1, ∃ q, e = SaveEvent.saveQueue q) ∧
    (7 ≤ (filter_queue s.used s.queueFile).length →
      (main_run s env).1.queueFile = s.queueFile ∧ (main_run s env).2.1 = []) ∧
    ((filter_queue s.used s.queueFile).length < 7 →
      (main_run s env).1.queueFile =
        filter_queue s.used s.queueFile ++ (replenish s.used env).1) :=
  main_run_publishFailed_inv s env h

/-- Witness for C3's amended statement, at the stale-queue publish-failure
scenario. -/
theorem c3_publish_failure_amended_witness :
    (main_run state_stale env_all_fail).1.used = state_stale.used ∧
    (main_run state_stale env_all_fail).1.log = state_stale.log ∧
    (main_run state_stale env_all_fail).1.queueFile =
      filter_queue state_stale.used state_stale.queueFile ++
        (replenish state_stale.used env_all_fail).1 :=
  ⟨(c3_publish_failure_amended state_stale env_all_fail (by decide)).1,
   (c3_publish_failure_amended state_stale env_all_fail (by decide)).2.1,
   (c3_publish_failure_amended state_stale env_all_fail (by decide)).2.2.2.2 (by decide)⟩

/-- C4 counterexample: two query-term iterations that both return id 5 make
one replenishment run append two CandidatePosts with the same artwork id, and
that duplicated queue is exactly what the replenishment checkpoint persists —
the claimed combined uniqueness invariant fails. -/
theorem c4_combined_uniqueness_counterexample :
    (replenish [] env_overlap).1.map (fun p => p.artwork_details.object_id) = [5, 5] ∧
    ¬ ((replenish [] env_overlap).1.map
        (fun p => p.artwork_details.object_id)).Nodup ∧
    (main_run state_empty env_overlap).2.1 =
      [SaveEvent.saveQueue (replenish [] env_overlap).1] := by
  decide

/-- C4 amended: the replenishment loop skips every id already in the used
set, so at the replenishment-commit state no queued id is in UsedArtworkSet;
but a single run can append two CandidatePosts with the same artwork id when
two iterations return overlapping identifier lists, so uniqueness across the
queue alone does not hold. -/
theorem c4_combined_uniqueness_amended (s : RunState) (env : Env) (p : CandidatePost)
    (h : p ∈ filter_queue s.used s.queueFile ++ (replenish s.used env).1) :
    is_used s.used p.artwork_details.object_id = false ∧
    toString p.artwork_details.object_id ∉ s.used := by
  have h1 := selecting_queue_not_used s env p h
  exact ⟨h1, (is_used_eq_false_iff _ _).1 h1⟩

/-- Witness for C4's amended statement: the second queued candidate of the
stale-queue state survives the filter and its id 2 is not in the used set. -/
theorem c4_combined_uniqueness_amended_witness :
    is_used state_stale.used second_post.artwork_details.object_id = false ∧
    toString second_post.artwork_details.object_id ∉ state_stale.used :=
  c4_combined_uniqueness_amended state_stale env_all_fail second_post (by decide)

/-- C5: when no search iteration yields a usable candidate (every returned id
is used, fails to fetch, or is the unknown-artist sentinel — failed and empty
searches return no ids at all), replenishment ends with zero new posts after
exactly the 50-attempt budget, and appending its output leaves any queue's
length unchanged. -/
theorem c5_replenish_attempt_budget (used : List String) (env : Env)
    (h : ∀ attempt oid, oid ∈ search_artworks (env.searchHttp attempt) 20 →
      is_used used oid = true ∨
      ∀ a, get_artwork_details oid (env.fetchHttp oid) = some a →
        a.artist = "Unknown Artist") :
    replenish used env = ([], 50) ∧
    ∀ q : List CandidatePost, (q ++ (replenish used env).1).length = q.length := by
  have hr := replenish_skip used env h
  refine ⟨hr, ?_⟩
  intro q
  rw [hr]
  simp

/-- Witness for C5: with every search failing, replenishment returns no posts
after exactly 50 attempts and leaves a one-element queue at length one. -/
theorem c5_replenish_attempt_budget_witness :
    replenish [] env_all_fail = ([], 50) ∧
    ([starry_post] ++ (replenish [] env_all_fail).1).length = [starry_post].length :=
  ⟨(c5_replenish_attempt_budget [] env_all_fail (fun attempt oid hm => by
      simp [env_all_fail, search_artworks] at hm)).1,
   (c5_replenish_attempt_budget [] env_all_fail (fun attempt oid hm => by
      simp [env_all_fail, search_artworks] at hm)).2 [starry_post]⟩

/-- C6: replenishment runs only when the filtered queue has fewer than 7
entries (otherwise selection proceeds directly on the filtered queue with no
queue checkpoint), appends at most 14 new posts, and every appended post
comes from an id that was not used, fetched successfully with an image, and
whose artist is not the unknown-artist sentinel. -/
theorem c6_replenish_contract :
    (∀ (s : RunState) (env : Env),
      7 ≤ (filter_queue s.used s.queueFile).length →
      main_run s env = select_and_publish s env (filter_queue s.used s.queueFile) []) ∧
    (∀ (used : List String) (env : Env), (replenish used env).1.length ≤ 14) ∧
    (∀ (used : List String) (env : Env) (p : CandidatePost),
      p ∈ (replenish used env).1 →
      is_used used p.artwork_details.object_id = false ∧
      get_artwork_details p.artwork_details.object_id
        (env.fetchHttp p.artwork_details.object_id) = some p.artwork_details ∧
      p.artwork_details.artist ≠ "Unknown Artist" ∧
      p.artwork_details.image_url ≠ "") := by
  refine ⟨?_, ?_, ?_⟩
  · intro s env hge
    rcases main_run_inv s env with ⟨hlt, _⟩ | ⟨_, heq⟩
    · omega
    · exact heq
  · intro used env
    exact replenish_length used env
  · intro used env p hp
    exact replenish_mem used env p hp

/-- Witness for C6: a seven-entry queue bypasses replenishment; the
overlapping-search environment generates the Vermeer post, which satisfies
all the skip conditions. -/
theorem c6_replenish_contract_witness :
    main_run state_seven env_all_fail =
      select_and_publish state_seven env_all_fail
        (filter_queue state_seven.used state_seven.queueFile) [] ∧
    (replenish [] env_all_fail).1.length ≤ 14 ∧
    (is_used [] vermeer_post.artwork_details.object_id = false ∧
      get_artwork_details vermeer_post.artwork_details.object_id
        (env_overlap.fetchHttp vermeer_post.artwork_details.object_id)
        = some vermeer_post.artwork_details ∧
      vermeer_post.artwork_details.artist ≠ "Unknown Artist" ∧
      vermeer_post.artwork_details.image_url ≠ "") :=
  ⟨c6_replenish_contract.1 state_seven env_all_fail (by decide),
   c6_replenish_contract.2.1 [] env_all_fail,
   c6_replenish_contract.2.2 [] env_overlap vermeer_post (by decide)⟩

/-- C7 counterexample: a search whose first request fails but whose second
would succeed returns the empty list, whereas the spec's three-attempt
retried search would return the results of the second attempt — so Met
searches are not retried. -/
theorem c7_retry_counterexample :
    search_artworks http_flaky 20 = [] ∧
    search_retried_spec http_flaky 20 = [5] ∧
    search_artworks http_flaky 20 ≠ search_retried_spec http_flaky 20 := by
  decide

/-- C7 amended: only the Wikidata SPARQL query is retried — up to three
attempts with exponential backoff sleeps of 2^attempt seconds between failed
attempts, returning the first success; the Met search and metadata fetch each
issue a single request, so their result depends only on the first response. -/
theorem c7_retry_amended :
    (∀ (α : Type) (http : Nat → Option α),
      http 0 = none → http 1 = none → http 2 = none →
      query_wikidata http = (none, [1, 2])) ∧
    (∀ (α : Type) (http : Nat → Option α) (r : α),
      http 0 = none → http 1 = some r →
      query_wikidata http = (some r, [1])) ∧
    (∀ (α : Type) (http : Nat → Option α) (r : α),
      http 0 = some r → query_wikidata http = (some r, [])) ∧
    (∀ (h h' : Nat → Except Unit (Option (List Nat))) (limit : Nat),
      h 0 = h' 0 → search_artworks h limit = search_artworks h' limit) ∧
    (∀ (object_id : Nat) (h h' : Nat → Option ApiObject),
      h 0 = h' 0 → get_artwork_details object_id h = get_artwork_details object_id h') := by
  refine ⟨?_, ?_, ?_, ?_, ?_⟩
  · intro α http h0 h1 h2
    simp [query_wikidata, query_wikidata_aux, h0, h1, h2]
  · intro α http r h0 h1
    simp [query_wikidata, query_wikidata_aux, h0, h1]
  · intro α http r h0
    simp [query_wikidata, query_wikidata_aux, h0]
  · intro h h' limit he
    unfold search_artworks
    rw [he]
  · intro object_id h h' he
    unfold get_artwork_details
    rw [he]

/-- Witness for C7's amended statement: concrete oracles exercising the three
Wikidata retry shapes and the single-request behaviour of search and fetch. -/
theorem c7_retry_amended_witness :
    query_wikidata (fun _ => (none : Option Nat)) = (none, [1, 2]) ∧
    query_wikidata (fun n => if n = 0 then none else some (7 : Nat)) = (some 7, [1]) ∧
    query_wikidata (fun _ => some (3 : Nat)) = (some 3, []) ∧
    search_artworks http_flaky 20 = search_artworks (fun _ => Except.error ()) 20 ∧
    get_artwork_details 5 (fun n => if n = 0 then none else some vermeer_api)
      = get_artwork_details 5 (fun _ => none) :=
  ⟨c7_retry_amended.1 Nat (fun _ => none) rfl rfl rfl,
   c7_retry_amended.2.1 Nat (fun n => if n = 0 then none else some 7) 7 rfl rfl,
   c7_retry_amended.2.2.1 Nat (fun _ => some 3) 3 rfl,
   c7_retry_amended.2.2.2.1 http_flaky (fun _ => Except.error ()) 20 rfl,
   c7_retry_amended.2.2.2.2 5 (fun n => if n = 0 then none else some vermeer_api)
     (fun _ => none) rfl⟩

/-- C8: when the queue is empty at Selecting time (after filtering and any
replenishment), the run ends with the printed "no posts available"
diagnostic and exit status 1, the used set and the log are unchanged, and
every write performed was a queue write. -/
theorem c8_empty_queue_abort (s : RunState) (env : Env)
    (h : filter_queue s.used s.queueFile ++ (replenish s.used env).1 = []) :
    (main_run s env).2.2 = RunOutcome.noPosts "❌ No posts available in queue!" ∧
    exitCode (main_run s env).2.2 = 1 ∧
    (main_run s env).1.used = s.used ∧
    (main_run s env).1.log = s.log ∧
    ∀ e ∈ (main_run s env).2.1, ∃ q, e = SaveEvent.saveQueue q := by
  have hfil : filter_queue s.used s.queueFile = [] := (List.append_eq_nil.1 h).1
  have hlt : (filter_queue s.used s.queueFile).length < 7 := by
    rw [hfil]
    simp
  rcases main_run_inv s env with ⟨_, heq⟩ | ⟨hge, heq⟩
  · rw [heq, h]
    refine ⟨rfl, rfl, rfl, rfl, ?_⟩
    intro e he
    exact ⟨[], List.mem_singleton.1 he⟩
  · omega

/-- Witness for C8: the empty starting state with all remote calls failing. -/
theorem c8_empty_queue_abort_witness :
    (main_run state_empty env_all_fail).2.2 =
      RunOutcome.noPosts "❌ No posts available in queue!" ∧
    exitCode (main_run state_empty env_all_fail).2.2 = 1 ∧
    (main_run state_empty env_all_fail).1.used = state_empty.used :=
  ⟨(c8_empty_queue_abort state_empty env_all_fail (by decide)).1,
   (c8_empty_queue_abort state_empty env_all_fail (by decide)).2.1,
   (c8_empty_queue_abort state_empty env_all_fail (by decide)).2.2.1⟩

/-- C9: loading any of the three stores from a missing or malformed file
yields the empty state instead of raising. -/
theorem c9_load_missing_or_malformed_empty :
    load_used FileState.missing = [] ∧ load_used FileState.malformed = [] ∧
    load_log FileState.missing = [] ∧ load_log FileState.malformed = [] ∧
    get_post_queue FileState.missing = [] ∧ get_post_queue FileState.malformed = [] :=
  ⟨rfl, rfl, rfl, rfl, rfl, rfl⟩

/-- C10: the used set stores identifiers in string form — after marking an
id used, the membership test succeeds whether the id is given as an integer
or as its decimal string, the persisted set contains the string form, and
marking an id a second time leaves the set unchanged. -/
theorem c10_used_set_string_form (used : List String) (n : Nat) :
    is_used (mark_used used n) n = true ∧
    is_used_str (mark_used used n) (toString n) = true ∧
    toString n ∈ mark_used used n ∧
    mark_used (mark_used used n) n = mark_used used n := by
  refine ⟨?_, ?_, mem_mark_used_self used n, setInsert_idem used (toString n)⟩
  · exact setInsert_contains_self used (toString n)
  · exact setInsert_contains_self used (toString n)
